import Mathlib

/-!
Verification development for the client-side breakout-rooms feature of a
group-chat application: a Pinia store (`useBreakoutRoomsStore`) tracking
breakout-room sub-conversations per parent conversation, and a thin HTTP
service layer (`breakoutRoomsService.ts`).

JavaScript plain objects with string keys are modelled as association
lists (`List (String × α)`) kept in insertion order: `Vue.set` replaces
the value in place when the key exists and appends otherwise;
`Vue.delete` removes the key; `Object.values` / `for … in` traverse in
insertion order. Async store actions take the result of their underlying
service call as an `Except` argument and return `Except String StoreState`,
where `Except.error` would model a rejected promise escaping the action;
a `try`/`catch` whose handler does not rethrow yields `Except.ok` in both
branches.
-/

set_option linter.unusedVariables false

namespace Spreed

/-- Lookup in a JS-object model: the (unique) binding for key `k`. -/
def recGet {α : Type} : List (String × α) → String → Option α
  | [], _ => none
  | p :: r, k => if p.1 = k then some p.2 else recGet r k

/-- `Vue.set` on a JS-object model: replace in place when the key exists,
append otherwise. -/
def recSet {α : Type} : List (String × α) → String → α → List (String × α)
  | [], k, v => [(k, v)]
  | p :: r, k, v => if p.1 = k then (k, v) :: r else p :: recSet r k v

/-- `Vue.delete` on a JS-object model. -/
def recDelete {α : Type} : List (String × α) → String → List (String × α)
  | [], _ => []
  | p :: r, k => if p.1 = k then recDelete r k else p :: recDelete r k

/-- `Object.keys` / `for … in` traversal order. -/
def recKeys {α : Type} (r : List (String × α)) : List String :=
  r.map Prod.fst

/-- `Object.values` traversal order. -/
def recValues {α : Type} (r : List (String × α)) : List α :=
  r.map Prod.snd

/-- The fields of a `Conversation` object that this feature reads:
its own token, its `objectType` type tag, and its `objectId`
(which for a breakout room is the parent room token). -/
structure Conversation where
  token : String
  objectType : String
  objectId : String
deriving DecidableEq, Repr

/-- Modelled from the spec: the breakout-room object-type tag
`CONVERSATION.OBJECT_TYPE.BREAKOUT_ROOM` comes from `constants.js`,
which is not among the supplied sources; the spec only requires it to be
a fixed tag distinguishing breakout rooms. -/
def BREAKOUT_ROOM_TAG : String := "room"

/-- The fields of a `Participant` object that the store reads. -/
structure Participant where
  attendeeId : Nat
  roomToken : String
deriving DecidableEq, Repr

/-- An action dispatched to the sibling (general conversation /
participants) Vuex store. -/
inductive Dispatch where
  | patchConversations (conversations : List Conversation)
  | deleteConversation (token : String)
  | patchParticipants (token : String) (newParticipants : List Participant)
  | showSidebar
deriving DecidableEq, Repr

/-- State of the breakout-rooms store, together with the observable
side effects of its actions: dispatches to the sibling store, console
error logs, toast messages shown by `showError`, and event-bus emits. -/
structure StoreState where
  rooms : List (String × List (String × Conversation))
  dispatched : List Dispatch
  consoleErrors : List String
  toasts : List String
  emits : List String
deriving DecidableEq, Repr

/-- The store's initial state (`state: () => ({ rooms: {} })`),
with all effect logs empty. -/
def emptyStore : StoreState :=
  { rooms := [], dispatched := [], consoleErrors := [], toasts := [], emits := [] }

instance : Inhabited StoreState := ⟨emptyStore⟩

/-- Getter `breakoutRooms`: `Object.values(Object(state.rooms[token]))`;
`Object(undefined)` is an empty object, so a missing key yields `[]`. -/
def breakoutRooms (s : StoreState) (token : String) : List Conversation :=
  recValues ((recGet s.rooms token).getD [])

/-- Getter `getParentRoomToken`: the first parent token whose mapping
has an entry for `token`, `undefined` (`none`) when there is none. -/
def getParentRoomToken (s : StoreState) (token : String) : Option String :=
  (s.rooms.find? (fun p => (recGet p.2 token).isSome)).map Prod.fst

/-- Action `addBreakoutRoom`: ensure an inner object exists for the
parent `token`, then `Vue.set` the room under its own token. -/
def addBreakoutRoom (s : StoreState) (token : String)
    (breakoutRoom : Conversation) : StoreState :=
  let inner := (recGet s.rooms token).getD []
  { s with rooms := recSet s.rooms token (recSet inner breakoutRoom.token breakoutRoom) }

/-- Action `processConversations`: store every breakout-room-typed
conversation of the response under the parent `token`, then dispatch
all returned conversations to the general conversation store via
`patchConversations`. A single conversation is passed as `[c]`. -/
def processConversations (s : StoreState) (token : String)
    (conversations : List Conversation) : StoreState :=
  let s1 := conversations.foldl
    (fun st c =>
      if c.objectType = BREAKOUT_ROOM_TAG then addBreakoutRoom st token c else st)
    s
  { s1 with dispatched := s1.dispatched ++ [Dispatch.patchConversations conversations] }

/-- Action `purgeBreakoutRoomsStore`: dispatch `deleteConversation` for
every room token under the parent `token`, then `Vue.delete` the key. -/
def purgeBreakoutRoomsStore (s : StoreState) (token : String) : StoreState :=
  { s with
    dispatched := s.dispatched ++
      (recKeys ((recGet s.rooms token).getD [])).map Dispatch.deleteConversation,
    rooms := recDelete s.rooms token }

/-- `console.error(error)` in a catch block. -/
def logError (s : StoreState) (e : String) : StoreState :=
  { s with consoleErrors := s.consoleErrors ++ [e] }

/-- `showError(t('spreed', msg))`: a static localized toast. -/
def showErrorToast (s : StoreState) (msg : String) : StoreState :=
  { s with toasts := s.toasts ++ [msg] }

/-- Extract the state an action resolved with (all actions resolve). -/
def resultState (a : Except String StoreState) : StoreState :=
  match a with
  | .ok s => s
  | .error _ => emptyStore

/-- Action `fetchBreakoutRoomsParticipants`, the grouping step: reduce
the returned participants into a record keyed by `roomToken`, appending
each participant to its group in arrival order. -/
def splitParticipants (ps : List Participant) : List (String × List Participant) :=
  ps.foldl
    (fun acc p => recSet acc p.roomToken ((recGet acc p.roomToken).getD [] ++ [p]))
    []

/-- Action `fetchBreakoutRoomsParticipants`: on success group the
participants by room token and dispatch `patchParticipants` per group;
on failure only `console.error` (no toast), never rethrowing. -/
def fetchBreakoutRoomsParticipants (s : StoreState) (token : String)
    (svc : Except String (List Participant)) : Except String StoreState :=
  match svc with
  | .ok data =>
      .ok { s with dispatched := s.dispatched ++
        (splitParticipants data).map (fun p => Dispatch.patchParticipants p.1 p.2) }
  | .error e => .ok (logError s e)

/-- Action `configureBreakoutRooms`: process the returned conversations,
fetch the breakout-room participants (itself never rejecting), then emit
the sidebar-tab event and dispatch `showSidebar`; on failure log and
toast. `svc` is the result of the `configureBreakoutRooms` service call,
`participantsSvc` the result of the nested `getBreakoutRoomsParticipants`
service call. -/
def configureBreakoutRooms (s : StoreState) (token : String)
    (svc : Except String (List Conversation))
    (participantsSvc : Except String (List Participant)) : Except String StoreState :=
  match svc with
  | .ok data =>
      let s1 := processConversations s token data
      match fetchBreakoutRoomsParticipants s1 token participantsSvc with
      | .ok s2 =>
          .ok { s2 with
            emits := s2.emits ++ ["spreed:select-active-sidebar-tab:breakout-rooms"],
            dispatched := s2.dispatched ++ [Dispatch.showSidebar] }
      | .error e =>
          .ok (showErrorToast (logError s1 e)
            "An error occurred while creating breakout rooms")
  | .error e =>
      .ok (showErrorToast (logError s e)
        "An error occurred while creating breakout rooms")

/-- Action `reorganizeAttendees`: process the returned conversations and
fetch the breakout-room participants; on failure log and toast. -/
def reorganizeAttendees (s : StoreState) (token : String)
    (svc : Except String (List Conversation))
    (participantsSvc : Except String (List Participant)) : Except String StoreState :=
  match svc with
  | .ok data =>
      let s1 := processConversations s token data
      match fetchBreakoutRoomsParticipants s1 token participantsSvc with
      | .ok s2 => .ok s2
      | .error e =>
          .ok (showErrorToast (logError s1 e)
            "An error occurred while re-ordering the attendees")
  | .error e =>
      .ok (showErrorToast (logError s e)
        "An error occurred while re-ordering the attendees")

/-- Action `deleteBreakoutRooms`: process the returned (parent)
conversations, then purge all breakout rooms for `token` from both
stores; on failure log and toast. -/
def deleteBreakoutRooms (s : StoreState) (token : String)
    (svc : Except String (List Conversation)) : Except String StoreState :=
  match svc with
  | .ok data =>
      .ok (purgeBreakoutRoomsStore (processConversations s token data) token)
  | .error e =>
      .ok (showErrorToast (logError s e)
        "An error occurred while deleting breakout rooms")

/-- Action `getBreakoutRooms`: process the returned conversations; the
catch block only logs to the console, showing no toast. -/
def getBreakoutRooms (s : StoreState) (token : String)
    (svc : Except String (List Conversation)) : Except String StoreState :=
  match svc with
  | .ok data => .ok (processConversations s token data)
  | .error e => .ok (logError s e)

/-- Action `startBreakoutRooms`: process the returned conversations; on
failure log and toast. -/
def startBreakoutRooms (s : StoreState) (token : String)
    (svc : Except String (List Conversation)) : Except String StoreState :=
  match svc with
  | .ok data => .ok (processConversations s token data)
  | .error e =>
      .ok (showErrorToast (logError s e)
        "An error occurred while starting breakout rooms")

/-- Action `stopBreakoutRooms`: process the returned conversations; on
failure log and toast. -/
def stopBreakoutRooms (s : StoreState) (token : String)
    (svc : Except String (List Conversation)) : Except String StoreState :=
  match svc with
  | .ok data => .ok (processConversations s token data)
  | .error e =>
      .ok (showErrorToast (logError s e)
        "An error occurred while stopping breakout rooms")

/-- Action `broadcastMessageToBreakoutRooms`: only issues the service
call; on failure log and toast. -/
def broadcastMessageToBreakoutRooms (s : StoreState) (token message : String)
    (svc : Except String Unit) : Except String StoreState :=
  match svc with
  | .ok _ => .ok s
  | .error e =>
      .ok (showErrorToast (logError s e)
        "An error occurred while sending a message to the breakout rooms")

/-- Action `requestAssistance`: the parent token is read from the
returned conversation's `objectId`; on failure log and toast. -/
def requestAssistance (s : StoreState) (token : String)
    (svc : Except String Conversation) : Except String StoreState :=
  match svc with
  | .ok data => .ok (processConversations s data.objectId [data])
  | .error e =>
      .ok (showErrorToast (logError s e)
        "An error occurred while requesting assistance")

/-- Action `dismissRequestAssistance`: the parent token is read from the
returned conversation's `objectId`; on failure log and toast. -/
def dismissRequestAssistance (s : StoreState) (token : String)
    (svc : Except String Conversation) : Except String StoreState :=
  match svc with
  | .ok data => .ok (processConversations s data.objectId [data])
  | .error e =>
      .ok (showErrorToast (logError s e)
        "An error occurred while resetting the request for assistance")

/-- Action `switchToBreakoutRoom`: process the returned conversations;
on failure log and toast. -/
def switchToBreakoutRoom (s : StoreState) (token target : String)
    (svc : Except String (List Conversation)) : Except String StoreState :=
  match svc with
  | .ok data => .ok (processConversations s token data)
  | .error e =>
      .ok (showErrorToast (logError s e)
        "An error occurred while joining breakout room")

/-! ## HTTP service layer (`breakoutRoomsService.ts`)

Each service function issues the HTTP requests it performs, modelled as
the list of `Request` values handed to `axios`; every function body is a
single `axios` call, hence a singleton list. -/

/-- HTTP method of an `axios` call. -/
inductive Method where
  | get
  | post
  | delete
deriving DecidableEq, Repr

/-- One HTTP request: method, URL, and the names of the payload fields
sent in the request body. -/
structure Request where
  method : Method
  path : String
  bodyFields : List String
deriving DecidableEq, Repr

/-- `generateOcsUrl(template, { token })`: substitute the conversation
token for the `{token}` path parameter. -/
def generateOcsUrl (template : String) (token : String) : String :=
  template.replace "{token}" token

namespace Service

def configureBreakoutRooms (token : String) (mode : Nat) (amount : Nat)
    (attendeeMap : Option String) : List Request :=
  [{ method := .post,
     path := generateOcsUrl "/apps/spreed/api/v1/breakout-rooms/{token}" token,
     bodyFields := ["mode", "amount", "attendeeMap"] }]

def reorganizeAttendees (token : String) (attendeeMap : String) : List Request :=
  [{ method := .post,
     path := generateOcsUrl "/apps/spreed/api/v1/breakout-rooms/{token}/attendees" token,
     bodyFields := ["attendeeMap"] }]

def deleteBreakoutRooms (token : String) : List Request :=
  [{ method := .delete,
     path := generateOcsUrl "/apps/spreed/api/v1/breakout-rooms/{token}" token,
     bodyFields := [] }]

def getBreakoutRooms (token : String) : List Request :=
  [{ method := .get,
     path := generateOcsUrl "/apps/spreed/api/v4/room/{token}/breakout-rooms" token,
     bodyFields := [] }]

def startBreakoutRooms (token : String) : List Request :=
  [{ method := .post,
     path := generateOcsUrl "/apps/spreed/api/v1/breakout-rooms/{token}/rooms" token,
     bodyFields := [] }]

def stopBreakoutRooms (token : String) : List Request :=
  [{ method := .delete,
     path := generateOcsUrl "/apps/spreed/api/v1/breakout-rooms/{token}/rooms" token,
     bodyFields := [] }]

def broadcastMessageToBreakoutRooms (token : String) (message : String) : List Request :=
  [{ method := .post,
     path := generateOcsUrl "/apps/spreed/api/v1/breakout-rooms/{token}/broadcast" token,
     bodyFields := ["message"] }]

def getBreakoutRoomsParticipants (token : String) : List Request :=
  [{ method := .get,
     path := generateOcsUrl "/apps/spreed/api/v4/room/{token}/breakout-rooms/participants" token,
     bodyFields := [] }]

def requestAssistance (token : String) : List Request :=
  [{ method := .post,
     path := generateOcsUrl "/apps/spreed/api/v1/breakout-rooms/{token}/request-assistance" token,
     bodyFields := [] }]

def resetRequestAssistance (token : String) : List Request :=
  [{ method := .delete,
     path := generateOcsUrl "/apps/spreed/api/v1/breakout-rooms/{token}/request-assistance" token,
     bodyFields := [] }]

def switchToBreakoutRoom (token : String) (target : String) : List Request :=
  [{ method := .post,
     path := generateOcsUrl "/apps/spreed/api/v1/breakout-rooms/{token}/switch" token,
     bodyFields := ["target"] }]

end Service

/-- The OCS API path under which the spec's external-interface table is
rooted, for the v1 breakout-rooms endpoints. -/
def apiV1 : String := "/apps/spreed/api/v1"

/-- The OCS API path under which the spec's external-interface table is
rooted, for the v4 room endpoints. -/
def apiV4 : String := "/apps/spreed/api/v4"

/-- Merging a response into the room mapping of one parent token:
insert each breakout-room-typed conversation under its own token, in
order. This characterizes what `processConversations` does to the inner
mapping of the parent token (a merge, not a wholesale rebuild). -/
def mergeRooms (inner : List (String × Conversation)) (cs : List Conversation) :
    List (String × Conversation) :=
  cs.foldl
    (fun i c => if c.objectType = BREAKOUT_ROOM_TAG then recSet i c.token c else i)
    inner

/-- Well-formedness of the `rooms` record: parent tokens are unique, and
within each parent's mapping every breakout-room token occurs at most
once. -/
def roomsWF (rooms : List (String × List (String × Conversation))) : Prop :=
  (recKeys rooms).Nodup ∧ ∀ p ∈ rooms, (recKeys p.2).Nodup

/-- The store invariant of the data model: room tokens are unique within
each parent's room mapping (and parent tokens are unique). -/
def RoomsInvariant (s : StoreState) : Prop :=
  roomsWF s.rooms

/-- A concrete breakout-room conversation used to evaluate theorems. -/
def roomA : Conversation :=
  { token := "r0", objectType := BREAKOUT_ROOM_TAG, objectId := "T" }

/-- A second concrete breakout-room conversation with a distinct token. -/
def roomB : Conversation :=
  { token := "r1", objectType := BREAKOUT_ROOM_TAG, objectId := "T" }

/-- A store already holding one breakout room (`roomA`) under parent
token `"T"`. -/
def staleStore : StoreState :=
  { emptyStore with rooms := [("T", [("r0", roomA)])] }

/-! ## Record (JS object) lemmas -/

section RecLemmas

variable {α : Type}

theorem recGet_recSet_self (r : List (String × α)) (k : String) (v : α) :
    recGet (recSet r k v) k = some v := by
  induction r with
  | nil => simp [recGet, recSet]
  | cons p r ih =>
      by_cases h : p.1 = k
      · simp [recGet, recSet, h]
      · simp [recGet, recSet, h, ih]

theorem recGet_recSet_ne (r : List (String × α)) (k k' : String) (v : α)
    (h : k' ≠ k) : recGet (recSet r k v) k' = recGet r k' := by
  induction r with
  | nil => simp [recGet, recSet, Ne.symm h]
  | cons p r ih =>
      by_cases hp : p.1 = k
      · simp [recGet, recSet, hp, Ne.symm h]
      · simp [recGet, recSet, hp, ih]

theorem recGet_eq_none_iff (r : List (String × α)) (k : String) :
    recGet r k = none ↔ k ∉ recKeys r := by
  induction r with
  | nil => simp [recGet, recKeys]
  | cons p r ih =>
      by_cases h : p.1 = k
      · simp [recGet, recKeys, h]
      · simp [recGet, recKeys, h, ih, Ne.symm h]

theorem recKeys_recSet (r : List (String × α)) (k : String) (v : α) :
    recKeys (recSet r k v) =
      if (recGet r k).isSome then recKeys r else recKeys r ++ [k] := by
  induction r with
  | nil => simp [recGet, recSet, recKeys]
  | cons p r ih =>
      by_cases h : p.1 = k
      · simp [recGet, recSet, recKeys, h]
      · have hcons : recKeys (recSet (p :: r) k v) = p.1 :: recKeys (recSet r k v) := by
          simp [recSet, if_neg h, recKeys]
        rw [hcons, ih]
        by_cases h2 : (recGet r k).isSome
        · simp [recGet, recKeys, h, h2]
        · simp [recGet, recKeys, h, h2]

theorem mem_recKeys_recSet_of_mem (r : List (String × α)) (k a : String) (v : α)
    (h : a ∈ recKeys r) : a ∈ recKeys (recSet r k v) := by
  rw [recKeys_recSet]
  by_cases h2 : (recGet r k).isSome <;> simp [h2, h]

theorem isSome_recGet_recSet (r : List (String × α)) (k k' : String) (v : α)
    (h : (recGet r k').isSome) : (recGet (recSet r k v) k').isSome := by
  by_cases hk : k' = k
  · subst hk; simp [recGet_recSet_self]
  · rwa [recGet_recSet_ne r k k' v hk]

theorem nodup_recKeys_recSet (r : List (String × α)) (k : String) (v : α)
    (h : (recKeys r).Nodup) : (recKeys (recSet r k v)).Nodup := by
  rw [recKeys_recSet]
  by_cases h2 : (recGet r k).isSome
  · simpa [h2]
  · have hk : k ∉ recKeys r :=
      (recGet_eq_none_iff r k).1 (Option.not_isSome_iff_eq_none.1 h2)
    simp [h2, List.nodup_append, h, hk]

theorem mem_recSet (r : List (String × α)) (k : String) (v : α)
    (q : String × α) (h : q ∈ recSet r k v) : q ∈ r ∨ q = (k, v) := by
  induction r with
  | nil => simp [recSet] at h; right; exact h
  | cons p r ih =>
      by_cases hp : p.1 = k
      · simp only [recSet, if_pos hp, List.mem_cons] at h
        rcases h with h | h
        · right; exact h
        · left; simp [h]
      · simp only [recSet, if_neg hp, List.mem_cons] at h
        rcases h with h | h
        · left; simp [h]
        · rcases ih h with h' | h'
          · left; simp [h']
          · right; exact h'

theorem recGet_mem (r : List (String × α)) (k : String) (v : α)
    (h : recGet r k = some v) : (k, v) ∈ r := by
  induction r with
  | nil => simp [recGet] at h
  | cons p r ih =>
      by_cases hp : p.1 = k
      · simp only [recGet, if_pos hp, Option.some.injEq] at h
        subst h
        rw [← hp]
        simp
      · simp only [recGet, if_neg hp] at h
        right
        exact ih h

theorem length_recSet_of_none (r : List (String × α)) (k : String) (v : α)
    (h : recGet r k = none) : (recSet r k v).length = r.length + 1 := by
  induction r with
  | nil => simp [recSet]
  | cons p r ih =>
      by_cases hp : p.1 = k
      · simp [recGet, hp] at h
      · simp only [recGet, if_neg hp] at h
        simp [recSet, if_neg hp, ih h]

theorem recGet_recDelete_self (r : List (String × α)) (k : String) :
    recGet (recDelete r k) k = none := by
  induction r with
  | nil => simp [recDelete, recGet]
  | cons p r ih =>
      by_cases hp : p.1 = k
      · simp [recDelete, hp, ih]
      · simp [recDelete, recGet, hp, ih]

theorem recDelete_sublist (r : List (String × α)) (k : String) :
    List.Sublist (recDelete r k) r := by
  induction r with
  | nil => simp [recDelete]
  | cons p r ih =>
      by_cases hp : p.1 = k
      · simpa [recDelete, hp] using ih.cons p
      · simpa [recDelete, hp] using ih.cons₂ p

end RecLemmas

/-! ## Store-level lemmas -/

theorem addBreakoutRoom_rooms_self (s : StoreState) (token : String)
    (c : Conversation) :
    recGet (addBreakoutRoom s token c).rooms token =
      some (recSet ((recGet s.rooms token).getD []) c.token c) := by
  simp [addBreakoutRoom, recGet_recSet_self]

theorem addBreakoutRoom_rooms_other (s : StoreState) (token t : String)
    (c : Conversation) (h : t ≠ token) :
    recGet (addBreakoutRoom s token c).rooms t = recGet s.rooms t := by
  simp [addBreakoutRoom, recGet_recSet_ne _ _ _ _ h]

theorem foldAdd_rooms_getD (token : String) (cs : List Conversation) :
    ∀ s : StoreState,
    (recGet ((cs.foldl
        (fun st c =>
          if c.objectType = BREAKOUT_ROOM_TAG then addBreakoutRoom st token c else st)
        s).rooms) token).getD [] =
      mergeRooms ((recGet s.rooms token).getD []) cs := by
  induction cs with
  | nil => intro s; simp [mergeRooms]
  | cons c cs ih =>
      intro s
      by_cases h : c.objectType = BREAKOUT_ROOM_TAG
      · simp only [List.foldl_cons, if_pos h, mergeRooms] at ih ⊢
        rw [ih]
        congr 1
        rw [addBreakoutRoom_rooms_self]
        rfl
      · simp only [List.foldl_cons, if_neg h, mergeRooms] at ih ⊢
        rw [ih]

theorem foldAdd_rooms_other (token t : String) (cs : List Conversation)
    (h : t ≠ token) :
    ∀ s : StoreState,
    recGet ((cs.foldl
        (fun st c =>
          if c.objectType = BREAKOUT_ROOM_TAG then addBreakoutRoom st token c else st)
        s).rooms) t = recGet s.rooms t := by
  induction cs with
  | nil => intro s; rfl
  | cons c cs ih =>
      intro s
      by_cases hc : c.objectType = BREAKOUT_ROOM_TAG
      · simp only [List.foldl_cons, if_pos hc]
        rw [ih, addBreakoutRoom_rooms_other _ _ _ _ h]
      · simp only [List.foldl_cons, if_neg hc]
        exact ih s

theorem foldAdd_effects (token : String) (cs : List Conversation) :
    ∀ s : StoreState,
    (cs.foldl
        (fun st c =>
          if c.objectType = BREAKOUT_ROOM_TAG then addBreakoutRoom st token c else st)
        s).dispatched = s.dispatched ∧
    (cs.foldl
        (fun st c =>
          if c.objectType = BREAKOUT_ROOM_TAG then addBreakoutRoom st token c else st)
        s).consoleErrors = s.consoleErrors ∧
    (cs.foldl
        (fun st c =>
          if c.objectType = BREAKOUT_ROOM_TAG then addBreakoutRoom st token c else st)
        s).toasts = s.toasts ∧
    (cs.foldl
        (fun st c =>
          if c.objectType = BREAKOUT_ROOM_TAG then addBreakoutRoom st token c else st)
        s).emits = s.emits := by
  induction cs with
  | nil => intro s; exact ⟨rfl, rfl, rfl, rfl⟩
  | cons c cs ih =>
      intro s
      by_cases hc : c.objectType = BREAKOUT_ROOM_TAG
      · simp only [List.foldl_cons, if_pos hc]
        exact ih (addBreakoutRoom s token c)
      · simp only [List.foldl_cons, if_neg hc]
        exact ih s

theorem processConversations_rooms_getD (s : StoreState) (token : String)
    (cs : List Conversation) :
    (recGet (processConversations s token cs).rooms token).getD [] =
      mergeRooms ((recGet s.rooms token).getD []) cs := by
  simpa [processConversations] using foldAdd_rooms_getD token cs s

theorem processConversations_rooms_other (s : StoreState) (token t : String)
    (cs : List Conversation) (h : t ≠ token) :
    recGet (processConversations s token cs).rooms t = recGet s.rooms t := by
  simpa [processConversations] using foldAdd_rooms_other token t cs h s

theorem processConversations_dispatched (s : StoreState) (token : String)
    (cs : List Conversation) :
    (processConversations s token cs).dispatched =
      s.dispatched ++ [Dispatch.patchConversations cs] := by
  simp [processConversations, (foldAdd_effects token cs s).1]

theorem mem_recKeys_mergeRooms (cs : List Conversation) :
    ∀ (inner : List (String × Conversation)) (a : String),
    a ∈ recKeys inner → a ∈ recKeys (mergeRooms inner cs) := by
  induction cs with
  | nil => intro inner a h; exact h
  | cons c cs ih =>
      intro inner a h
      by_cases hc : c.objectType = BREAKOUT_ROOM_TAG
      · simp only [mergeRooms, List.foldl_cons, if_pos hc] at ih ⊢
        exact ih _ a (mem_recKeys_recSet_of_mem _ _ _ _ h)
      · simp only [mergeRooms, List.foldl_cons, if_neg hc] at ih ⊢
        exact ih _ a h

theorem isSome_mergeRooms_of_isSome (cs : List Conversation) :
    ∀ (inner : List (String × Conversation)) (k : String),
    (recGet inner k).isSome → (recGet (mergeRooms inner cs) k).isSome := by
  induction cs with
  | nil => intro inner k h; exact h
  | cons c cs ih =>
      intro inner k h
      by_cases hc : c.objectType = BREAKOUT_ROOM_TAG
      · simp only [mergeRooms, List.foldl_cons, if_pos hc] at ih ⊢
        exact ih _ k (isSome_recGet_recSet _ _ _ _ h)
      · simp only [mergeRooms, List.foldl_cons, if_neg hc] at ih ⊢
        exact ih _ k h

theorem recGet_mergeRooms_cases (cs : List Conversation) :
    ∀ (inner : List (String × Conversation)) (k : String) (v : Conversation),
    recGet (mergeRooms inner cs) k = some v →
    recGet inner k = some v ∨
      (v ∈ cs ∧ v.objectType = BREAKOUT_ROOM_TAG ∧ v.token = k) := by
  induction cs with
  | nil => intro inner k v h; exact Or.inl h
  | cons c cs ih =>
      intro inner k v h
      by_cases hc : c.objectType = BREAKOUT_ROOM_TAG
      · simp only [mergeRooms, List.foldl_cons, if_pos hc] at ih h
        rcases ih _ k v h with h1 | h1
        · by_cases hk : k = c.token
          · subst hk
            rw [recGet_recSet_self] at h1
            injection h1 with hv
            subst hv
            exact Or.inr ⟨List.mem_cons_self c cs, hc, rfl⟩
          · rw [recGet_recSet_ne _ _ _ _ hk] at h1
            exact Or.inl h1
        · exact Or.inr ⟨List.mem_cons_of_mem c h1.1, h1.2.1, h1.2.2⟩
      · simp only [mergeRooms, List.foldl_cons, if_neg hc] at ih h
        rcases ih _ k v h with h1 | h1
        · exact Or.inl h1
        · exact Or.inr ⟨List.mem_cons_of_mem c h1.1, h1.2.1, h1.2.2⟩

theorem mergeRooms_mem_token_isSome (cs : List Conversation) :
    ∀ (inner : List (String × Conversation)) (c : Conversation),
    c ∈ cs → c.objectType = BREAKOUT_ROOM_TAG →
    (recGet (mergeRooms inner cs) c.token).isSome := by
  induction cs with
  | nil => intro inner c h; exact absurd h (List.not_mem_nil c)
  | cons d cs ih =>
      intro inner c hmem htype
      rcases List.mem_cons.1 hmem with h | h
      · subst h
        simp only [mergeRooms, List.foldl_cons, if_pos htype]
        exact isSome_mergeRooms_of_isSome cs _ _ (by simp [recGet_recSet_self])
      · by_cases hd : d.objectType = BREAKOUT_ROOM_TAG
        · simp only [mergeRooms, List.foldl_cons, if_pos hd] at ih ⊢
          exact ih _ c h htype
        · simp only [mergeRooms, List.foldl_cons, if_neg hd] at ih ⊢
          exact ih _ c h htype

theorem mergeRooms_length (cs : List Conversation) :
    ∀ inner : List (String × Conversation),
    ((cs.filter (fun c => c.objectType = BREAKOUT_ROOM_TAG)).map
        Conversation.token).Nodup →
    (∀ c ∈ cs, c.objectType = BREAKOUT_ROOM_TAG → recGet inner c.token = none) →
    (mergeRooms inner cs).length =
      inner.length +
        (cs.filter (fun c => c.objectType = BREAKOUT_ROOM_TAG)).length := by
  induction cs with
  | nil => intro inner _ _; simp [mergeRooms]
  | cons c cs ih =>
      intro inner hnd hfresh
      by_cases hc : c.objectType = BREAKOUT_ROOM_TAG
      · simp only [mergeRooms, List.foldl_cons, if_pos hc] at ih ⊢
        have hfilter :
            List.filter (fun c => decide (c.objectType = BREAKOUT_ROOM_TAG)) (c :: cs) =
              c :: List.filter (fun c => decide (c.objectType = BREAKOUT_ROOM_TAG)) cs := by
          simp [List.filter_cons, hc]
        rw [hfilter] at hnd ⊢
        rw [List.map_cons, List.nodup_cons] at hnd
        obtain ⟨hnotin, hnd'⟩ := hnd
        have hfresh' : ∀ d ∈ cs, d.objectType = BREAKOUT_ROOM_TAG →
            recGet (recSet inner c.token c) d.token = none := by
          intro d hd hdt
          have hne : d.token ≠ c.token := by
            intro he
            apply hnotin
            rw [← he]
            exact List.mem_map_of_mem Conversation.token
              (List.mem_filter.2 ⟨hd, by simpa using hdt⟩)
          rw [recGet_recSet_ne _ _ _ _ hne]
          exact hfresh d (List.mem_cons_of_mem c hd) hdt
        rw [ih (recSet inner c.token c) hnd' hfresh',
          length_recSet_of_none inner c.token c
            (hfresh c (List.mem_cons_self c cs) hc)]
        simp only [List.length_cons]
        omega
      · simp only [mergeRooms, List.foldl_cons, if_neg hc] at ih ⊢
        have hfilter :
            List.filter (fun c => decide (c.objectType = BREAKOUT_ROOM_TAG)) (c :: cs) =
              List.filter (fun c => decide (c.objectType = BREAKOUT_ROOM_TAG)) cs := by
          simp [List.filter_cons, hc]
        rw [hfilter] at hnd ⊢
        exact ih inner hnd (fun d hd hdt => hfresh d (List.mem_cons_of_mem c hd) hdt)

/-! ## Invariant preservation -/

theorem roomsWF_recSet_inner (rooms : List (String × List (String × Conversation)))
    (token : String) (inner : List (String × Conversation))
    (hwf : roomsWF rooms) (hinner : (recKeys inner).Nodup) :
    roomsWF (recSet rooms token inner) := by
  constructor
  · exact nodup_recKeys_recSet _ _ _ hwf.1
  · intro p hp
    rcases mem_recSet _ _ _ _ hp with h | h
    · exact hwf.2 p h
    · rw [h]
      exact hinner

theorem invariant_addBreakoutRoom (s : StoreState) (token : String)
    (c : Conversation) (h : RoomsInvariant s) :
    RoomsInvariant (addBreakoutRoom s token c) := by
  have hinner : (recKeys ((recGet s.rooms token).getD [])).Nodup := by
    cases hr : recGet s.rooms token with
    | none => simp [recKeys]
    | some i => exact h.2 (token, i) (recGet_mem _ _ _ hr)
  exact roomsWF_recSet_inner s.rooms token _ h
    (nodup_recKeys_recSet _ _ _ hinner)

theorem invariant_foldAdd (token : String) (cs : List Conversation) :
    ∀ s : StoreState, RoomsInvariant s →
    RoomsInvariant
      (cs.foldl
        (fun st c =>
          if c.objectType = BREAKOUT_ROOM_TAG then addBreakoutRoom st token c else st)
        s) := by
  induction cs with
  | nil => intro s h; exact h
  | cons c cs ih =>
      intro s h
      by_cases hc : c.objectType = BREAKOUT_ROOM_TAG
      · simp only [List.foldl_cons, if_pos hc]
        exact ih _ (invariant_addBreakoutRoom s token c h)
      · simp only [List.foldl_cons, if_neg hc]
        exact ih s h

theorem invariant_processConversations (s : StoreState) (token : String)
    (cs : List Conversation) (h : RoomsInvariant s) :
    RoomsInvariant (processConversations s token cs) :=
  invariant_foldAdd token cs s h

theorem invariant_purge (s : StoreState) (token : String)
    (h : RoomsInvariant s) : RoomsInvariant (purgeBreakoutRoomsStore s token) := by
  constructor
  · exact List.Nodup.sublist ((recDelete_sublist s.rooms token).map Prod.fst) h.1
  · intro p hp
    exact h.2 p ((recDelete_sublist s.rooms token).mem hp)

theorem invariant_logError (s : StoreState) (e : String) (h : RoomsInvariant s) :
    RoomsInvariant (logError s e) := h

theorem invariant_showErrorToast (s : StoreState) (m : String)
    (h : RoomsInvariant s) : RoomsInvariant (showErrorToast s m) := h

theorem invariant_fetchParticipants (s : StoreState) (token : String)
    (svc : Except String (List Participant)) (h : RoomsInvariant s) :
    RoomsInvariant (resultState (fetchBreakoutRoomsParticipants s token svc)) := by
  cases svc with
  | ok data => exact h
  | error e => exact h

theorem recGet_mergeRooms_untouched (cs : List Conversation) :
    ∀ (inner : List (String × Conversation)) (r : String) (v : Conversation),
    recGet inner r = some v →
    (∀ c ∈ cs, c.objectType = BREAKOUT_ROOM_TAG → c.token ≠ r) →
    recGet (mergeRooms inner cs) r = some v := by
  induction cs with
  | nil => intro inner r v h _; exact h
  | cons c cs ih =>
      intro inner r v h huntouched
      by_cases hc : c.objectType = BREAKOUT_ROOM_TAG
      · simp only [mergeRooms, List.foldl_cons, if_pos hc] at ih ⊢
        refine ih _ r v ?_ (fun d hd hdt => huntouched d (List.mem_cons_of_mem c hd) hdt)
        rw [recGet_recSet_ne _ _ _ _
          (Ne.symm (huntouched c (List.mem_cons_self c cs) hc))]
        exact h
      · simp only [mergeRooms, List.foldl_cons, if_neg hc] at ih ⊢
        exact ih _ r v h (fun d hd hdt => huntouched d (List.mem_cons_of_mem c hd) hdt)

theorem length_recSet_of_isSome {α : Type} (r : List (String × α)) (k : String)
    (v : α) (h : (recGet r k).isSome) : (recSet r k v).length = r.length := by
  induction r with
  | nil => simp [recGet] at h
  | cons p r ih =>
      by_cases hp : p.1 = k
      · simp [recSet, hp]
      · simp only [recGet, if_neg hp] at h
        simp [recSet, if_neg hp, ih h]

theorem configure_rooms_ok (s : StoreState) (token : String)
    (data : List Conversation) (psvc : Except String (List Participant)) :
    (resultState (configureBreakoutRooms s token (Except.ok data) psvc)).rooms =
      (processConversations s token data).rooms := by
  cases psvc <;> rfl

theorem roomsInvariant_empty : RoomsInvariant emptyStore :=
  ⟨List.nodup_nil, fun p hp => absurd hp (List.not_mem_nil p)⟩

theorem invariant_configure (s : StoreState) (token : String)
    (svc : Except String (List Conversation))
    (psvc : Except String (List Participant)) (h : RoomsInvariant s) :
    RoomsInvariant (resultState (configureBreakoutRooms s token svc psvc)) := by
  cases svc with
  | error e => exact h
  | ok data =>
      cases psvc with
      | ok p => exact invariant_processConversations s token data h
      | error e => exact invariant_processConversations s token data h

theorem invariant_reorganize (s : StoreState) (token : String)
    (svc : Except String (List Conversation))
    (psvc : Except String (List Participant)) (h : RoomsInvariant s) :
    RoomsInvariant (resultState (reorganizeAttendees s token svc psvc)) := by
  cases svc with
  | error e => exact h
  | ok data =>
      cases psvc with
      | ok p => exact invariant_processConversations s token data h
      | error e => exact invariant_processConversations s token data h

theorem invariant_delete (s : StoreState) (token : String)
    (svc : Except String (List Conversation)) (h : RoomsInvariant s) :
    RoomsInvariant (resultState (deleteBreakoutRooms s token svc)) := by
  cases svc with
  | error e => exact h
  | ok data =>
      exact invariant_purge _ token (invariant_processConversations s token data h)

theorem invariant_get (s : StoreState) (token : String)
    (svc : Except String (List Conversation)) (h : RoomsInvariant s) :
    RoomsInvariant (resultState (getBreakoutRooms s token svc)) := by
  cases svc with
  | error e => exact h
  | ok data => exact invariant_processConversations s token data h

theorem invariant_start (s : StoreState) (token : String)
    (svc : Except String (List Conversation)) (h : RoomsInvariant s) :
    RoomsInvariant (resultState (startBreakoutRooms s token svc)) := by
  cases svc with
  | error e => exact h
  | ok data => exact invariant_processConversations s token data h

theorem invariant_stop (s : StoreState) (token : String)
    (svc : Except String (List Conversation)) (h : RoomsInvariant s) :
    RoomsInvariant (resultState (stopBreakoutRooms s token svc)) := by
  cases svc with
  | error e => exact h
  | ok data => exact invariant_processConversations s token data h

theorem invariant_broadcast (s : StoreState) (token message : String)
    (svc : Except String Unit) (h : RoomsInvariant s) :
    RoomsInvariant (resultState (broadcastMessageToBreakoutRooms s token message svc)) := by
  cases svc with
  | error e => exact h
  | ok data => exact h

theorem invariant_requestAssistance (s : StoreState) (token : String)
    (svc : Except String Conversation) (h : RoomsInvariant s) :
    RoomsInvariant (resultState (requestAssistance s token svc)) := by
  cases svc with
  | error e => exact h
  | ok data => exact invariant_processConversations s data.objectId [data] h

theorem invariant_dismissRequestAssistance (s : StoreState) (token : String)
    (svc : Except String Conversation) (h : RoomsInvariant s) :
    RoomsInvariant (resultState (dismissRequestAssistance s token svc)) := by
  cases svc with
  | error e => exact h
  | ok data => exact invariant_processConversations s data.objectId [data] h

theorem invariant_switch (s : StoreState) (token target : String)
    (svc : Except String (List Conversation)) (h : RoomsInvariant s) :
    RoomsInvariant (resultState (switchToBreakoutRoom s token target svc)) := by
  cases svc with
  | error e => exact h
  | ok data => exact invariant_processConversations s token data h

/-! ## Claims -/

/-- C1 (counterexample): a sync does NOT rebuild the mapping wholesale.
With `roomA` already stored under parent `"T"`, processing a response
containing only `roomB` leaves `roomA` in the mapping, so the mapping is
not exactly the breakout-room-typed conversations of the response. -/
theorem C1_counterexample :
    breakoutRooms (processConversations staleStore "T" [roomB]) "T" = [roomA, roomB] ∧
    breakoutRooms (processConversations staleStore "T" [roomB]) "T" ≠ [roomB] := by
  constructor
  · decide
  · decide

/-- C1 (amended): a server sync merges the response into the mapping for
the parent token instead of rebuilding it: the inner mapping after
`processConversations` equals the previous inner mapping with each
breakout-room-typed conversation of the response inserted under its own
token (replacing a same-token entry, appending otherwise); in
particular, previous entries whose room token is not named by a
breakout-room-typed conversation of the response are carried over
unchanged. -/
theorem C1_merge_not_rebuild (s : StoreState) (token : String)
    (cs : List Conversation) :
    (recGet (processConversations s token cs).rooms token).getD [] =
      mergeRooms ((recGet s.rooms token).getD []) cs ∧
    ∀ r v, recGet ((recGet s.rooms token).getD []) r = some v →
      (∀ c ∈ cs, c.objectType = BREAKOUT_ROOM_TAG → c.token ≠ r) →
      recGet ((recGet (processConversations s token cs).rooms token).getD []) r =
        some v := by
  constructor
  · exact processConversations_rooms_getD s token cs
  · intro r v h huntouched
    rw [processConversations_rooms_getD]
    exact recGet_mergeRooms_untouched cs _ r v h huntouched

/-- C1 (witness): concrete instance of the retention part of the
amended claim: `roomA` survives a sync whose response names only
`roomB`. -/
theorem C1_witness :
    recGet ((recGet (processConversations staleStore "T" [roomB]).rooms "T").getD [])
      "r0" = some roomA :=
  (C1_merge_not_rebuild staleStore "T" [roomB]).2 "r0" roomA (by decide) (by decide)

/-- C2: after `deleteBreakoutRooms` succeeds, the action equals
processing the returned conversations followed by purging; the rooms
record no longer has a key for the parent token, and every room token
previously mapped under it has been dispatched for deletion to the
general conversation store. -/
theorem C2_delete_purges_both_stores (s : StoreState) (token : String)
    (data : List Conversation) :
    deleteBreakoutRooms s token (Except.ok data) =
      Except.ok (purgeBreakoutRoomsStore (processConversations s token data) token) ∧
    recGet (resultState (deleteBreakoutRooms s token (Except.ok data))).rooms token =
      none ∧
    ∀ r ∈ recKeys ((recGet s.rooms token).getD []),
      Dispatch.deleteConversation r ∈
        (resultState (deleteBreakoutRooms s token (Except.ok data))).dispatched := by
  refine ⟨rfl, ?_, ?_⟩
  · show recGet
      (purgeBreakoutRoomsStore (processConversations s token data) token).rooms
      token = none
    simp [purgeBreakoutRoomsStore, recGet_recDelete_self]
  · intro r hr
    show Dispatch.deleteConversation r ∈
      (purgeBreakoutRoomsStore (processConversations s token data) token).dispatched
    simp only [purgeBreakoutRoomsStore]
    apply List.mem_append_right
    apply List.mem_map_of_mem
    rw [processConversations_rooms_getD]
    exact mem_recKeys_mergeRooms data _ r hr

/-- C2 (witness): deleting the rooms of `staleStore` dispatches deletion
of the previously stored room token `"r0"`. -/
theorem C2_witness :
    Dispatch.deleteConversation "r0" ∈
      (resultState (deleteBreakoutRooms staleStore "T" (Except.ok []))).dispatched :=
  (C2_delete_purges_both_stores staleStore "T" []).2.2 "r0" (by decide)

/-- C3 (counterexample): configuring rooms does not leave exactly N
entries when stale rooms are already stored: with `roomA` already under
`"T"`, a successful configuration whose response holds the single
configured room `roomB` (amount N = 1) leaves 2 entries, not 1. -/
theorem C3_counterexample :
    (breakoutRooms (resultState
        (configureBreakoutRooms staleStore "T" (Except.ok [roomB]) (Except.ok [])))
      "T").length = 2 ∧
    (breakoutRooms (resultState
        (configureBreakoutRooms staleStore "T" (Except.ok [roomB]) (Except.ok [])))
      "T").length ≠ 1 := by
  constructor
  · decide
  · decide

/-- C3 (amended): if the store held no rooms under the parent token
before the action, and the server responds with conversations whose
breakout-room-typed members number N and carry pairwise-distinct
tokens, then after `configureBreakoutRooms` succeeds the `breakoutRooms`
getter for that token returns exactly N entries. -/
theorem C3_configure_count (s : StoreState) (token : String)
    (data : List Conversation) (psvc : Except String (List Participant)) (n : Nat)
    (hempty : (recGet s.rooms token).getD [] = [])
    (hnd : ((data.filter (fun c => c.objectType = BREAKOUT_ROOM_TAG)).map
      Conversation.token).Nodup)
    (hn : (data.filter (fun c => c.objectType = BREAKOUT_ROOM_TAG)).length = n) :
    (breakoutRooms (resultState
        (configureBreakoutRooms s token (Except.ok data) psvc)) token).length = n := by
  show (recValues ((recGet (resultState
      (configureBreakoutRooms s token (Except.ok data) psvc)).rooms token).getD
    [])).length = n
  rw [configure_rooms_ok, processConversations_rooms_getD, hempty]
  rw [recValues, List.length_map]
  rw [mergeRooms_length data [] hnd (fun c hc ht => rfl)]
  simpa using hn

/-- C3 (witness): configuring from an empty store with a response of two
distinct breakout rooms yields a room list of length two. -/
theorem C3_witness :
    (breakoutRooms (resultState
        (configureBreakoutRooms emptyStore "T" (Except.ok [roomA, roomB])
          (Except.ok []))) "T").length = 2 :=
  C3_configure_count emptyStore "T" [roomA, roomB] (Except.ok []) 2
    (by decide) (by decide) (by decide)

/-- C4: `processConversations` stores exactly the breakout-room-typed
conversations of the response under the parent token: every
breakout-room-typed conversation of the list gets an entry under its
token, every entry of the resulting mapping is either carried over or a
breakout-room-typed member of the list, mappings of other parent tokens
are untouched, and the whole list is forwarded to the general
conversation store via a `patchConversations` dispatch. -/
theorem C4_type_filtering (s : StoreState) (token : String)
    (cs : List Conversation) :
    (∀ c ∈ cs, c.objectType = BREAKOUT_ROOM_TAG →
      (recGet ((recGet (processConversations s token cs).rooms token).getD [])
        c.token).isSome) ∧
    (∀ r v,
      recGet ((recGet (processConversations s token cs).rooms token).getD []) r =
        some v →
      recGet ((recGet s.rooms token).getD []) r = some v ∨
        (v ∈ cs ∧ v.objectType = BREAKOUT_ROOM_TAG ∧ v.token = r)) ∧
    (∀ t, t ≠ token →
      recGet (processConversations s token cs).rooms t = recGet s.rooms t) ∧
    (processConversations s token cs).dispatched =
      s.dispatched ++ [Dispatch.patchConversations cs] := by
  refine ⟨?_, ?_, ?_, processConversations_dispatched s token cs⟩
  · intro c hc ht
    rw [processConversations_rooms_getD]
    exact mergeRooms_mem_token_isSome cs _ c hc ht
  · intro r v h
    rw [processConversations_rooms_getD] at h
    exact recGet_mergeRooms_cases cs _ r v h
  · intro t ht
    exact processConversations_rooms_other s token t cs ht

/-- C4 (witness): processing a response containing the breakout-typed
`roomA` stores an entry for its token `"r0"`. -/
theorem C4_witness :
    (recGet ((recGet (processConversations emptyStore "T" [roomA]).rooms "T").getD [])
      "r0").isSome = true :=
  (C4_type_filtering emptyStore "T" [roomA]).1 roomA (by decide) (by decide)

/-- C5 (counterexample): a failing `getBreakoutRooms` request is logged
to the console but surfaces NO toast: the toast log stays empty, so the
claim that every action surfaces a localized toast (in particular
`getBreakoutRooms`) is false. -/
theorem C5_counterexample :
    (resultState (getBreakoutRooms emptyStore "T" (Except.error "boom"))).toasts =
      [] ∧
    (resultState
      (getBreakoutRooms emptyStore "T" (Except.error "boom"))).consoleErrors =
      ["boom"] :=
  ⟨rfl, rfl⟩

/-- C5 (amended): every failing store action catches its error and logs
it to the console; all of them except `getBreakoutRooms` and
`fetchBreakoutRoomsParticipants` additionally surface a static localized
toast, while those two only log. -/
theorem C5_log_and_toast (s : StoreState) (token target message e : String)
    (psvc : Except String (List Participant)) :
    resultState (configureBreakoutRooms s token (Except.error e) psvc) =
      showErrorToast (logError s e)
        "An error occurred while creating breakout rooms" ∧
    resultState (reorganizeAttendees s token (Except.error e) psvc) =
      showErrorToast (logError s e)
        "An error occurred while re-ordering the attendees" ∧
    resultState (deleteBreakoutRooms s token (Except.error e)) =
      showErrorToast (logError s e)
        "An error occurred while deleting breakout rooms" ∧
    resultState (startBreakoutRooms s token (Except.error e)) =
      showErrorToast (logError s e)
        "An error occurred while starting breakout rooms" ∧
    resultState (stopBreakoutRooms s token (Except.error e)) =
      showErrorToast (logError s e)
        "An error occurred while stopping breakout rooms" ∧
    resultState (broadcastMessageToBreakoutRooms s token message (Except.error e)) =
      showErrorToast (logError s e)
        "An error occurred while sending a message to the breakout rooms" ∧
    resultState (requestAssistance s token (Except.error e)) =
      showErrorToast (logError s e)
        "An error occurred while requesting assistance" ∧
    resultState (dismissRequestAssistance s token (Except.error e)) =
      showErrorToast (logError s e)
        "An error occurred while resetting the request for assistance" ∧
    resultState (switchToBreakoutRoom s token target (Except.error e)) =
      showErrorToast (logError s e)
        "An error occurred while joining breakout room" ∧
    resultState (getBreakoutRooms s token (Except.error e)) = logError s e ∧
    resultState (fetchBreakoutRoomsParticipants s token (Except.error e)) =
      logError s e :=
  ⟨rfl, rfl, rfl, rfl, rfl, rfl, rfl, rfl, rfl, rfl, rfl⟩

/-- C6: no store action rejects: for every action and every result of
the underlying service call - in particular any error - the action
resolves normally with some state. -/
theorem C6_no_rejection (s : StoreState) (token target message : String)
    (svcL : Except String (List Conversation)) (svcC : Except String Conversation)
    (svcU : Except String Unit) (psvc : Except String (List Participant)) :
    (∃ s1, configureBreakoutRooms s token svcL psvc = Except.ok s1) ∧
    (∃ s1, reorganizeAttendees s token svcL psvc = Except.ok s1) ∧
    (∃ s1, deleteBreakoutRooms s token svcL = Except.ok s1) ∧
    (∃ s1, getBreakoutRooms s token svcL = Except.ok s1) ∧
    (∃ s1, startBreakoutRooms s token svcL = Except.ok s1) ∧
    (∃ s1, stopBreakoutRooms s token svcL = Except.ok s1) ∧
    (∃ s1, broadcastMessageToBreakoutRooms s token message svcU = Except.ok s1) ∧
    (∃ s1, fetchBreakoutRoomsParticipants s token psvc = Except.ok s1) ∧
    (∃ s1, requestAssistance s token svcC = Except.ok s1) ∧
    (∃ s1, dismissRequestAssistance s token svcC = Except.ok s1) ∧
    (∃ s1, switchToBreakoutRoom s token target svcL = Except.ok s1) := by
  refine ⟨?_, ?_, ?_, ?_, ?_, ?_, ?_, ?_, ?_, ?_, ?_⟩ <;>
    (cases svcL <;> cases svcC <;> cases svcU <;> cases psvc <;> exact ⟨_, rfl⟩)

/-- C7: each of the eleven service functions issues exactly one HTTP
request, whose method is the one in the external-interface table, whose
URL is the table's path (rooted at the app's OCS API base, the token
substituted as path parameter), and whose body carries exactly the
listed payload fields; no retry is performed. -/
theorem C7_service_requests (token target attendeeMapStr message : String)
    (mode amount : Nat) (am : Option String) :
    Service.configureBreakoutRooms token mode amount am =
      [{ method := Method.post,
         path := generateOcsUrl (apiV1 ++ "/breakout-rooms/{token}") token,
         bodyFields := ["mode", "amount", "attendeeMap"] }] ∧
    Service.reorganizeAttendees token attendeeMapStr =
      [{ method := Method.post,
         path := generateOcsUrl (apiV1 ++ "/breakout-rooms/{token}/attendees") token,
         bodyFields := ["attendeeMap"] }] ∧
    Service.deleteBreakoutRooms token =
      [{ method := Method.delete,
         path := generateOcsUrl (apiV1 ++ "/breakout-rooms/{token}") token,
         bodyFields := [] }] ∧
    Service.getBreakoutRooms token =
      [{ method := Method.get,
         path := generateOcsUrl (apiV4 ++ "/room/{token}/breakout-rooms") token,
         bodyFields := [] }] ∧
    Service.startBreakoutRooms token =
      [{ method := Method.post,
         path := generateOcsUrl (apiV1 ++ "/breakout-rooms/{token}/rooms") token,
         bodyFields := [] }] ∧
    Service.stopBreakoutRooms token =
      [{ method := Method.delete,
         path := generateOcsUrl (apiV1 ++ "/breakout-rooms/{token}/rooms") token,
         bodyFields := [] }] ∧
    Service.broadcastMessageToBreakoutRooms token message =
      [{ method := Method.post,
         path := generateOcsUrl (apiV1 ++ "/breakout-rooms/{token}/broadcast") token,
         bodyFields := ["message"] }] ∧
    Service.getBreakoutRoomsParticipants token =
      [{ method := Method.get,
         path := generateOcsUrl (apiV4 ++ "/room/{token}/breakout-rooms/participants")
           token,
         bodyFields := [] }] ∧
    Service.requestAssistance token =
      [{ method := Method.post,
         path := generateOcsUrl (apiV1 ++ "/breakout-rooms/{token}/request-assistance")
           token,
         bodyFields := [] }] ∧
    Service.resetRequestAssistance token =
      [{ method := Method.delete,
         path := generateOcsUrl (apiV1 ++ "/breakout-rooms/{token}/request-assistance")
           token,
         bodyFields := [] }] ∧
    Service.switchToBreakoutRoom token target =
      [{ method := Method.post,
         path := generateOcsUrl (apiV1 ++ "/breakout-rooms/{token}/switch") token,
         bodyFields := ["target"] }] :=
  ⟨rfl, rfl, rfl, rfl, rfl, rfl, rfl, rfl, rfl, rfl, rfl⟩

/-- C8: room-token uniqueness within each parent's mapping is preserved
by every store operation; moreover adding a breakout room whose token
already exists under the parent replaces the entry, keeping the
mapping's size, rather than creating a duplicate. -/
theorem C8_token_unique_invariant (s : StoreState)
    (token target message : String) (c : Conversation) (cs : List Conversation)
    (svcL : Except String (List Conversation)) (svcC : Except String Conversation)
    (svcU : Except String Unit) (psvc : Except String (List Participant))
    (h : RoomsInvariant s) :
    RoomsInvariant (addBreakoutRoom s token c) ∧
    RoomsInvariant (processConversations s token cs) ∧
    RoomsInvariant (purgeBreakoutRoomsStore s token) ∧
    RoomsInvariant (resultState (configureBreakoutRooms s token svcL psvc)) ∧
    RoomsInvariant (resultState (reorganizeAttendees s token svcL psvc)) ∧
    RoomsInvariant (resultState (deleteBreakoutRooms s token svcL)) ∧
    RoomsInvariant (resultState (getBreakoutRooms s token svcL)) ∧
    RoomsInvariant (resultState (startBreakoutRooms s token svcL)) ∧
    RoomsInvariant (resultState (stopBreakoutRooms s token svcL)) ∧
    RoomsInvariant
      (resultState (broadcastMessageToBreakoutRooms s token message svcU)) ∧
    RoomsInvariant (resultState (fetchBreakoutRoomsParticipants s token psvc)) ∧
    RoomsInvariant (resultState (requestAssistance s token svcC)) ∧
    RoomsInvariant (resultState (dismissRequestAssistance s token svcC)) ∧
    RoomsInvariant (resultState (switchToBreakoutRoom s token target svcL)) ∧
    ((recGet ((recGet s.rooms token).getD []) c.token).isSome →
      ((recGet (addBreakoutRoom s token c).rooms token).getD []).length =
        ((recGet s.rooms token).getD []).length) := by
  refine ⟨invariant_addBreakoutRoom s token c h,
    invariant_processConversations s token cs h,
    invariant_purge s token h,
    invariant_configure s token svcL psvc h,
    invariant_reorganize s token svcL psvc h,
    invariant_delete s token svcL h,
    invariant_get s token svcL h,
    invariant_start s token svcL h,
    invariant_stop s token svcL h,
    invariant_broadcast s token message svcU h,
    invariant_fetchParticipants s token psvc h,
    invariant_requestAssistance s token svcC h,
    invariant_dismissRequestAssistance s token svcC h,
    invariant_switch s token target svcL h, ?_⟩
  intro hsome
  rw [addBreakoutRoom_rooms_self]
  show (recSet ((recGet s.rooms token).getD []) c.token c).length = _
  exact length_recSet_of_isSome _ _ _ hsome

/-- C8 (witness): the invariant holds for the empty store and is
preserved when a room is added to it; re-adding `roomA` over
`staleStore` keeps the mapping size at one. -/
theorem C8_witness :
    RoomsInvariant (addBreakoutRoom emptyStore "T" roomA) :=
  (C8_token_unique_invariant emptyStore "T" "t" "m" roomA []
    (Except.ok []) (Except.ok roomA) (Except.ok ()) (Except.ok [])
    roomsInvariant_empty).1

/-- C9: the `breakoutRooms` getter returns the empty list for a token
with no entry in the rooms record, and `getParentRoomToken` returns
`undefined` (`none`) exactly when the token is not a breakout-room token
in any parent's mapping. -/
theorem C9_getters_total (s : StoreState) (token : String) :
    (recGet s.rooms token = none → breakoutRooms s token = []) ∧
    (getParentRoomToken s token = none ↔
      ∀ p ∈ s.rooms, recGet p.2 token = none) := by
  constructor
  · intro h
    simp [breakoutRooms, h, recValues]
  · rw [getParentRoomToken]
    simp [Option.map_eq_none', List.find?_eq_none, Option.not_isSome_iff_eq_none]

/-- C9 (witness): on the empty store the getter returns `[]` for the
never-seen token `"T"`. -/
theorem C9_witness : breakoutRooms emptyStore "T" = [] :=
  (C9_getters_total emptyStore "T").1 rfl

/-- C10: if the underlying service call rejects, every rooms-mutating
action leaves the store's rooms record exactly as it was. -/
theorem C10_atomic_on_error (s : StoreState) (token target e : String)
    (psvc : Except String (List Participant)) :
    (resultState (configureBreakoutRooms s token (Except.error e) psvc)).rooms =
      s.rooms ∧
    (resultState (reorganizeAttendees s token (Except.error e) psvc)).rooms =
      s.rooms ∧
    (resultState (deleteBreakoutRooms s token (Except.error e))).rooms = s.rooms ∧
    (resultState (getBreakoutRooms s token (Except.error e))).rooms = s.rooms ∧
    (resultState (startBreakoutRooms s token (Except.error e))).rooms = s.rooms ∧
    (resultState (stopBreakoutRooms s token (Except.error e))).rooms = s.rooms ∧
    (resultState (requestAssistance s token (Except.error e))).rooms = s.rooms ∧
    (resultState (dismissRequestAssistance s token (Except.error e))).rooms =
      s.rooms ∧
    (resultState (switchToBreakoutRoom s token target (Except.error e))).rooms =
      s.rooms :=
  ⟨rfl, rfl, rfl, rfl, rfl, rfl, rfl, rfl, rfl⟩

end Spreed
